import Mathlib

/-!
# customKey: HID key pad firmware (src/main.c)

A shallow embedding of the decision logic of `src/main.c`: the two scans of the
six input lines PB4..PB9 (`checkButtons`, `getButtonKeycodes`), one iteration of
the polling loop of `hid_task`, and the four lifecycle callbacks that re-arm the
blink timer.

Conventions of the embedding.
* A scan of the six lines (`getButtonKeycodes` or `checkButtons`) reads each pin
  at most once, so what a scan sees is a snapshot of the lines, and
  `HAL_GPIO_ReadPin` is a lookup in it (line `i` is pin `PB(4+i)`). One loop
  iteration of `hid_task` scans twice, first in `getButtonKeycodes` and later
  in `checkButtons`; the two scans have a snapshot each, which may differ.
* Calls into the USB stack made by `hid_task` are recorded, in program order,
  as a list of `Call`s.
* Constants and macros that `main.c` uses but does not define (tinyusb's HID
  key codes and mouse masks, the report ids of `usb_descriptors.h`, FreeRTOS's
  `pdMS_TO_TICKS`) are fields of the parameter `Externals`.
* `xTimerChangePeriod` is taken to succeed: the timer's period becomes the
  requested one.
-/

namespace CustomKey

/-! ## Data model -/

/-- An unsigned byte (`uint8_t`). -/
abbrev uint8_t := Fin 256

/-- Level of an input pin as returned by `HAL_GPIO_ReadPin`. -/
inductive GPIO_PinState
  | GPIO_PIN_RESET
  | GPIO_PIN_SET
  deriving DecidableEq, Repr

open GPIO_PinState

/-- The levels of the six input lines at one sampling instant; line `i` is pin `PB(4+i)`. -/
abbrev Lines := Fin 6 → GPIO_PinState

/-- Pin PB4, input line 0. -/
def GPIO_PIN_4 : Fin 6 := 0
/-- Pin PB5, input line 1. -/
def GPIO_PIN_5 : Fin 6 := 1
/-- Pin PB6, input line 2. -/
def GPIO_PIN_6 : Fin 6 := 2
/-- Pin PB7, input line 3. -/
def GPIO_PIN_7 : Fin 6 := 3
/-- Pin PB8, input line 4. -/
def GPIO_PIN_8 : Fin 6 := 4
/-- Pin PB9, input line 5. -/
def GPIO_PIN_9 : Fin 6 := 5

/-- Reading one pin of port B: a lookup in the snapshot. -/
def HAL_GPIO_ReadPin (GPIOB : Lines) (GPIO_Pin : Fin 6) : GPIO_PinState :=
  GPIOB GPIO_Pin

/-- C's `!` on a pin state: true exactly for `GPIO_PIN_RESET` (value 0). -/
def lnot (v : GPIO_PinState) : Bool :=
  match v with
  | GPIO_PIN_RESET => true
  | GPIO_PIN_SET => false

/-- Names that `main.c` takes from headers outside the source file: the HID key
codes and mouse button masks of tinyusb, the report ids of `usb_descriptors.h`
and the FreeRTOS conversion from milliseconds to timer ticks. -/
structure Externals where
  HID_KEY_B : uint8_t
  HID_KEY_C : uint8_t
  HID_KEY_D : uint8_t
  HID_KEY_7 : uint8_t
  HID_KEY_CONTROL_LEFT : uint8_t
  HID_KEY_SHIFT_LEFT : uint8_t
  MOUSE_BUTTON_BACKWARD : uint8_t
  MOUSE_BUTTON_FORWARD : uint8_t
  REPORT_ID_KEYBOARD : uint8_t
  REPORT_ID_MOUSE : uint8_t
  pdMS_TO_TICKS : Nat → Nat

/-- The values these names have in tinyusb (USB HID usage tables; report ids 1
and 2) with a 1 kHz tick; used to instantiate the theorems on concrete data. -/
def tinyusb : Externals where
  HID_KEY_B := 0x05
  HID_KEY_C := 0x06
  HID_KEY_D := 0x07
  HID_KEY_7 := 0x24
  HID_KEY_CONTROL_LEFT := 0xE0
  HID_KEY_SHIFT_LEFT := 0xE1
  MOUSE_BUTTON_BACKWARD := 8
  MOUSE_BUTTON_FORWARD := 16
  REPORT_ID_KEYBOARD := 1
  REPORT_ID_MOUSE := 2
  pdMS_TO_TICKS := fun ms => ms * 1000 / 1000

/-- Blink period while the device is not mounted, in ms. -/
def BLINK_NOT_MOUNTED : Nat := 250
/-- Blink period while the device is mounted, in ms. -/
def BLINK_MOUNTED : Nat := 1000
/-- Blink period while the bus is suspended, in ms. -/
def BLINK_SUSPENDED : Nat := 2500

/-- Return value of `getButtonKeycodes` for a keyboard action. -/
def BUTTON_PRESS_ACTION_KEYBOARD_KEYS : uint8_t := 1
/-- Return value of `getButtonKeycodes` for a mouse action. -/
def BUTTON_PRESS_ACTION_MOUSE_BUTTONS : uint8_t := 2

/-! ## The two scans -/

/-- The function `checkButtons`: is any of PB4..PB9 low? -/
def checkButtons (GPIOB : Lines) : Bool :=
  if lnot (HAL_GPIO_ReadPin GPIOB GPIO_PIN_4) then true
  else if lnot (HAL_GPIO_ReadPin GPIOB GPIO_PIN_5) then true
  else if lnot (HAL_GPIO_ReadPin GPIOB GPIO_PIN_6) then true
  else if lnot (HAL_GPIO_ReadPin GPIOB GPIO_PIN_7) then true
  else if lnot (HAL_GPIO_ReadPin GPIOB GPIO_PIN_8) then true
  else if lnot (HAL_GPIO_ReadPin GPIOB GPIO_PIN_9) then true
  else false

/-- The function `getButtonKeycodes`: the returned byte and the buffer `keycode` as
the call leaves it. -/
def getButtonKeycodes (x : Externals) (GPIOB : Lines) (keycode : List uint8_t) :
    uint8_t × List uint8_t :=
  if lnot (HAL_GPIO_ReadPin GPIOB GPIO_PIN_4) then
    (BUTTON_PRESS_ACTION_KEYBOARD_KEYS, keycode.set 0 x.HID_KEY_B)
  else if lnot (HAL_GPIO_ReadPin GPIOB GPIO_PIN_5) then
    (BUTTON_PRESS_ACTION_KEYBOARD_KEYS, keycode.set 0 x.HID_KEY_C)
  else if lnot (HAL_GPIO_ReadPin GPIOB GPIO_PIN_6) then
    (BUTTON_PRESS_ACTION_KEYBOARD_KEYS, keycode.set 0 x.HID_KEY_D)
  else if lnot (HAL_GPIO_ReadPin GPIOB GPIO_PIN_7) then
    (BUTTON_PRESS_ACTION_MOUSE_BUTTONS, keycode.set 0 x.MOUSE_BUTTON_BACKWARD)
  else if lnot (HAL_GPIO_ReadPin GPIOB GPIO_PIN_8) then
    (BUTTON_PRESS_ACTION_KEYBOARD_KEYS,
      (((keycode.set 0 x.HID_KEY_CONTROL_LEFT).set 1 x.HID_KEY_SHIFT_LEFT).set 1 x.HID_KEY_7))
  else if lnot (HAL_GPIO_ReadPin GPIOB GPIO_PIN_9) then
    (BUTTON_PRESS_ACTION_MOUSE_BUTTONS, keycode.set 0 x.MOUSE_BUTTON_FORWARD)
  else
    (0, keycode)

/-! ## One iteration of `hid_task` -/

/-- A call from `hid_task` into the USB stack. -/
inductive Call
  | tud_remote_wakeup
  | tud_hid_mouse_report (report_id buttons : uint8_t) (x y vertical horizontal : Int)
  | tud_hid_keyboard_report (report_id modifier : uint8_t) (keycode : List uint8_t)
  deriving DecidableEq, Repr

/-- What one poll tick reads from outside besides the suspend flag: the board
button (`board_button_read`, a `uint32_t`), the endpoint readiness
(`tud_hid_ready`), the six lines as the scan of `getButtonKeycodes` reads them
(`GPIOB`) and the six lines as the later scan of `checkButtons` reads them
(`GPIOB_check`). -/
structure PollInput where
  board_button_read : Nat
  tud_hid_ready : Bool
  GPIOB : Lines
  GPIOB_check : Lines

/-- The body of the `while(1)` loop of `hid_task` after the delay, with
`tud_suspended()` returning `suspended`: the calls it makes, in order. -/
def hid_task_tick (x : Externals) (suspended : Bool) (i : PollInput) : List Call :=
  let btn := i.board_button_read
  let wake := if suspended && (btn != 0) then [Call.tud_remote_wakeup] else []
  let keycode : List uint8_t := [0, 0, 0, 0, 0, 0]
  let r := getButtonKeycodes x i.GPIOB keycode
  let mode := r.1
  let keycode := r.2
  let report :=
    if i.tud_hid_ready && checkButtons i.GPIOB_check then
      if mode == BUTTON_PRESS_ACTION_MOUSE_BUTTONS then
        [Call.tud_hid_mouse_report x.REPORT_ID_MOUSE (keycode.getD 0 0) 0 0 0 0]
      else
        [Call.tud_hid_keyboard_report x.REPORT_ID_KEYBOARD 0 keycode]
    else []
  wake ++ report

/-- Is the call a HID report (keyboard or mouse)? -/
def Call.isReport : Call → Bool
  | .tud_remote_wakeup => false
  | .tud_hid_mouse_report _ _ _ _ _ _ => true
  | .tud_hid_keyboard_report _ _ _ => true

/-- Is the call a remote-wake request? -/
def Call.isWakeup : Call → Bool
  | .tud_remote_wakeup => true
  | _ => false

/-- The HID reports among a list of calls. -/
def reports (cs : List Call) : List Call := cs.filter Call.isReport

/-- The number of remote-wake requests among a list of calls. -/
def wakeups (cs : List Call) : Nat := cs.countP Call.isWakeup

/-! ## Lifecycle callbacks and the blink timer -/

/-- The software timer `blinky_tm`, reduced to its period in ticks. -/
structure Timer where
  period : Nat
  deriving DecidableEq, Repr

/-- The call `xTimerChangePeriod(tm, newPeriod, 0)`, taken to succeed. -/
def xTimerChangePeriod (_tm : Timer) (xNewPeriod : Nat) : Timer :=
  ⟨xNewPeriod⟩

/-- The timer as `main` creates it: `xTimerCreateStatic(NULL, pdMS_TO_TICKS(BLINK_NOT_MOUNTED), ...)`. -/
def main_blinky_tm (x : Externals) : Timer :=
  ⟨x.pdMS_TO_TICKS BLINK_NOT_MOUNTED⟩

/-- The callback `tud_mount_cb`. -/
def tud_mount_cb (x : Externals) (blinky_tm : Timer) : Timer :=
  xTimerChangePeriod blinky_tm (x.pdMS_TO_TICKS BLINK_MOUNTED)

/-- The callback `tud_umount_cb`. -/
def tud_umount_cb (x : Externals) (blinky_tm : Timer) : Timer :=
  xTimerChangePeriod blinky_tm (x.pdMS_TO_TICKS BLINK_NOT_MOUNTED)

/-- The callback `tud_suspend_cb`; its argument is discarded, as in the source. -/
def tud_suspend_cb (x : Externals) (_remote_wakeup_en : Bool) (blinky_tm : Timer) : Timer :=
  xTimerChangePeriod blinky_tm (x.pdMS_TO_TICKS BLINK_SUSPENDED)

/-- The callback `tud_resume_cb`. -/
def tud_resume_cb (x : Externals) (blinky_tm : Timer) : Timer :=
  xTimerChangePeriod blinky_tm (x.pdMS_TO_TICKS BLINK_MOUNTED)

/-! ## The device together with the USB stack's connection state -/

/-- A lifecycle event signalled by the USB stack. -/
inductive Event
  | mount
  | umount
  | suspend (remote_wakeup_en : Bool)
  | resume
  deriving DecidableEq, Repr

/-- The connection state kept by the USB stack. -/
inductive ConnectionState
  | NotMounted
  | Mounted
  | Suspended
  deriving DecidableEq, Repr

/-- Modelled from the spec: the connection state the USB stack (tinyusb, outside
the source file) is in after a lifecycle event, by the transition table of the
Connection State Monitor: mount and resume give Mounted, unmount gives
NotMounted, suspend gives Suspended. -/
def connectionAfter : Event → ConnectionState
  | .mount => .Mounted
  | .umount => .NotMounted
  | .suspend _ => .Suspended
  | .resume => .Mounted

/-- Modelled from the spec: the stack's query `tud_suspended()` (outside the source
file) answers whether the connection state is Suspended. -/
def tud_suspended (c : ConnectionState) : Bool :=
  match c with
  | .Suspended => true
  | _ => false

/-- The firmware's timer next to the stack's connection state. -/
structure System where
  blinky_tm : Timer
  connection : ConnectionState
  deriving DecidableEq, Repr

/-- The system after `main`: timer created with the not-mounted period, stack not mounted. -/
def System.start (x : Externals) : System :=
  ⟨main_blinky_tm x, .NotMounted⟩

/-- The stack delivers a lifecycle event: it changes its connection state and
invokes the matching callback of `main.c`. -/
def deliver (x : Externals) (s : System) (e : Event) : System :=
  match e with
  | .mount => ⟨tud_mount_cb x s.blinky_tm, connectionAfter .mount⟩
  | .umount => ⟨tud_umount_cb x s.blinky_tm, connectionAfter .umount⟩
  | .suspend en => ⟨tud_suspend_cb x en s.blinky_tm, connectionAfter (.suspend en)⟩
  | .resume => ⟨tud_resume_cb x s.blinky_tm, connectionAfter .resume⟩

/-- What happens next: a lifecycle event or one poll tick of `hid_task`. -/
inductive Input
  | event (e : Event)
  | poll (i : PollInput)

/-- One step of the system: the new state and the calls `hid_task` made. -/
def step (x : Externals) (s : System) : Input → System × List Call
  | .event e => (deliver x s e, [])
  | .poll i => (s, hid_task_tick x (tud_suspended s.connection) i)

/-- A run over a sequence of inputs: the final state and all calls made, in order. -/
def run (x : Externals) (s : System) : List Input → System × List Call
  | [] => (s, [])
  | a :: rest =>
    let r := step x s a
    let q := run x r.1 rest
    (q.1, r.2 ++ q.2)

/-- The blink period, in ms, that goes with a lifecycle event. -/
def periodOf : Event → Nat
  | .mount => 1000
  | .umount => 250
  | .suspend _ => 2500
  | .resume => 1000

/-! ## The resolver as the specification words it -/

/-- The mapping table of the Action Resolver: the action kind bound to a line and
the payload it writes into the keycode buffer. -/
def lineAction (x : Externals) (line : Fin 6) (keycode : List uint8_t) :
    uint8_t × List uint8_t :=
  match line with
  | 0 => (1, keycode.set 0 x.HID_KEY_B)
  | 1 => (1, keycode.set 0 x.HID_KEY_C)
  | 2 => (1, keycode.set 0 x.HID_KEY_D)
  | 3 => (2, keycode.set 0 x.MOUSE_BUTTON_BACKWARD)
  | 4 => (1, (keycode.set 0 x.HID_KEY_CONTROL_LEFT).set 1 x.HID_KEY_7)
  | 5 => (2, keycode.set 0 x.MOUSE_BUTTON_FORWARD)

/-- Line `i` reads low and is the lowest-indexed line that does. -/
def LowestLow (GPIOB : Lines) (i : Fin 6) : Prop :=
  GPIOB i = GPIO_PIN_RESET ∧ ∀ j : Fin 6, j < i → GPIOB j = GPIO_PIN_SET

instance (GPIOB : Lines) (i : Fin 6) : Decidable (LowestLow GPIOB i) := by
  unfold LowestLow
  infer_instance

/-- A snapshot given by the list of lines that read low. -/
def linesLow (low : List (Fin 6)) : Lines :=
  fun i => if i ∈ low then GPIO_PIN_RESET else GPIO_PIN_SET

/-- The lifecycle events among a sequence of inputs, in order. -/
def eventsOf : List Input → List Event
  | [] => []
  | .event e :: rest => e :: eventsOf rest
  | .poll _ :: rest => eventsOf rest

/-- The all-zero keycode buffer `hid_task` starts each tick with (`uint8_t keycode[6] = { 0 }`). -/
def zeroKeycode : List uint8_t := [0, 0, 0, 0, 0, 0]

/-! ## Basic facts about the scans -/

theorem not_reset_iff (v : GPIO_PinState) : v ≠ GPIO_PIN_RESET ↔ v = GPIO_PIN_SET := by
  cases v <;> simp

theorem checkButtons_iff (g : Lines) :
    checkButtons g = true ↔ ∃ i : Fin 6, g i = GPIO_PIN_RESET := by
  constructor
  · intro h
    by_contra hc
    push_neg at hc
    have e : ∀ i : Fin 6, g i = GPIO_PIN_SET := fun i => (not_reset_iff _).1 (hc i)
    simp [checkButtons, HAL_GPIO_ReadPin, lnot, e] at h
  · rintro ⟨i, hi⟩
    unfold checkButtons HAL_GPIO_ReadPin GPIO_PIN_4 GPIO_PIN_5 GPIO_PIN_6 GPIO_PIN_7
      GPIO_PIN_8 GPIO_PIN_9
    fin_cases i <;> simp at hi <;> simp [hi, lnot]

theorem checkButtons_eq_false_iff (g : Lines) :
    checkButtons g = false ↔ ∀ i : Fin 6, g i = GPIO_PIN_SET := by
  rw [← Bool.not_eq_true, checkButtons_iff]
  push_neg
  exact forall_congr' fun i => not_reset_iff _

theorem exists_lowestLow (g : Lines) (h : ∃ i : Fin 6, g i = GPIO_PIN_RESET) :
    ∃ i : Fin 6, LowestLow g i := by
  obtain ⟨m, hm, hmin⟩ := wellFounded_lt.has_min {i : Fin 6 | g i = GPIO_PIN_RESET} h
  exact ⟨m, hm, fun j hj => (not_reset_iff _).1 fun hr => hmin j hr hj⟩

theorem getButtonKeycodes_lowest (x : Externals) (g : Lines) (buf : List uint8_t) (i : Fin 6)
    (h : LowestLow g i) : getButtonKeycodes x g buf = lineAction x i buf := by
  obtain ⟨hi, hlt⟩ := h
  unfold getButtonKeycodes HAL_GPIO_ReadPin GPIO_PIN_4 GPIO_PIN_5 GPIO_PIN_6 GPIO_PIN_7
    GPIO_PIN_8 GPIO_PIN_9
  fin_cases i
  · simp at hi; simp [hi, lnot, lineAction, BUTTON_PRESS_ACTION_KEYBOARD_KEYS]
  · have h0 := hlt 0 (by decide)
    simp at hi; simp [hi, h0, lnot, lineAction, BUTTON_PRESS_ACTION_KEYBOARD_KEYS]
  · have h0 := hlt 0 (by decide)
    have h1 := hlt 1 (by decide)
    simp at hi; simp [hi, h0, h1, lnot, lineAction, BUTTON_PRESS_ACTION_KEYBOARD_KEYS]
  · have h0 := hlt 0 (by decide)
    have h1 := hlt 1 (by decide)
    have h2 := hlt 2 (by decide)
    simp at hi; simp [hi, h0, h1, h2, lnot, lineAction, BUTTON_PRESS_ACTION_MOUSE_BUTTONS]
  · have h0 := hlt 0 (by decide)
    have h1 := hlt 1 (by decide)
    have h2 := hlt 2 (by decide)
    have h3 := hlt 3 (by decide)
    simp at hi
    simp [hi, h0, h1, h2, h3, lnot, lineAction, BUTTON_PRESS_ACTION_KEYBOARD_KEYS]
  · have h0 := hlt 0 (by decide)
    have h1 := hlt 1 (by decide)
    have h2 := hlt 2 (by decide)
    have h3 := hlt 3 (by decide)
    have h4 := hlt 4 (by decide)
    simp at hi
    simp [hi, h0, h1, h2, h3, h4, lnot, lineAction, BUTTON_PRESS_ACTION_MOUSE_BUTTONS]

theorem getButtonKeycodes_none (x : Externals) (g : Lines) (buf : List uint8_t)
    (h : ∀ i : Fin 6, g i = GPIO_PIN_SET) : getButtonKeycodes x g buf = (0, buf) := by
  simp [getButtonKeycodes, HAL_GPIO_ReadPin, lnot, h]

theorem lineAction_kind (x : Externals) (i : Fin 6) (buf : List uint8_t) :
    (lineAction x i buf).1 = 1 ∨ (lineAction x i buf).1 = 2 := by
  fin_cases i <;> simp [lineAction]

theorem lineAction_length (x : Externals) (i : Fin 6) (buf : List uint8_t) :
    (lineAction x i buf).2.length = buf.length := by
  fin_cases i <;> simp [lineAction]

theorem getButtonKeycodes_kind_ne_zero_iff (x : Externals) (g : Lines) (buf : List uint8_t) :
    (getButtonKeycodes x g buf).1 ≠ 0 ↔ ∃ i : Fin 6, g i = GPIO_PIN_RESET := by
  constructor
  · intro h
    by_contra hc
    push_neg at hc
    exact h (by rw [getButtonKeycodes_none x g buf fun i => (not_reset_iff _).1 (hc i)])
  · intro h
    obtain ⟨i, hi⟩ := exists_lowestLow g h
    rw [getButtonKeycodes_lowest x g buf i hi]
    rcases lineAction_kind x i buf with e | e <;> rw [e] <;> decide

/-! ## Basic facts about one poll tick and about runs -/

theorem reports_tick (x : Externals) (susp : Bool) (i : PollInput) :
    reports (hid_task_tick x susp i) =
      if i.tud_hid_ready && checkButtons i.GPIOB_check then
        if (getButtonKeycodes x i.GPIOB zeroKeycode).1 == BUTTON_PRESS_ACTION_MOUSE_BUTTONS then
          [Call.tud_hid_mouse_report x.REPORT_ID_MOUSE
            ((getButtonKeycodes x i.GPIOB zeroKeycode).2.getD 0 0) 0 0 0 0]
        else
          [Call.tud_hid_keyboard_report x.REPORT_ID_KEYBOARD 0
            (getButtonKeycodes x i.GPIOB zeroKeycode).2]
      else [] := by
  unfold hid_task_tick reports zeroKeycode
  simp only [List.filter_append]
  split_ifs <;> simp [Call.isReport]

theorem wakeups_tick (x : Externals) (susp : Bool) (i : PollInput) :
    wakeups (hid_task_tick x susp i) =
      if susp && (i.board_button_read != 0) then 1 else 0 := by
  unfold hid_task_tick wakeups
  simp only [List.countP_append]
  split_ifs <;> simp [Call.isWakeup]

theorem run_polls_state (x : Externals) (s : System) (ps : List PollInput) :
    (run x s (ps.map Input.poll)).1 = s := by
  induction ps with
  | nil => rfl
  | cons p ps ih => simpa [run, step] using ih

/-! ## The claims -/

/-- C1: on a snapshot with at least one line low, `getButtonKeycodes` returns the
kind and leaves the payload bound to the lowest-indexed low line (which exists),
whatever the higher-indexed lines read; with lines 0 and 3 both low the result is
kind 1 with `HID_KEY_B` written to slot 0, and not kind 2. -/
theorem getButtonKeycodes_first_low_wins (x : Externals) (GPIOB : Lines)
    (keycode : List uint8_t) (h : ∃ i : Fin 6, GPIOB i = GPIO_PIN_RESET) :
    (∃ i : Fin 6, LowestLow GPIOB i ∧
      getButtonKeycodes x GPIOB keycode = lineAction x i keycode) ∧
    (GPIOB 0 = GPIO_PIN_RESET → GPIOB 3 = GPIO_PIN_RESET →
      (getButtonKeycodes x GPIOB keycode).1 = 1 ∧
      (getButtonKeycodes x GPIOB keycode).2 = keycode.set 0 x.HID_KEY_B ∧
      (keycode ≠ [] → (getButtonKeycodes x GPIOB keycode).2.head? = some x.HID_KEY_B) ∧
      (getButtonKeycodes x GPIOB keycode).1 ≠ 2) := by
  refine ⟨?_, ?_⟩
  · obtain ⟨i, hi⟩ := exists_lowestLow GPIOB h
    exact ⟨i, hi, getButtonKeycodes_lowest x GPIOB keycode i hi⟩
  · intro h0 _
    have hl : LowestLow GPIOB 0 := ⟨h0, fun j hj => absurd hj (by omega)⟩
    rw [getButtonKeycodes_lowest x GPIOB keycode 0 hl]
    refine ⟨rfl, rfl, ?_, by show (1 : uint8_t) ≠ 2; decide⟩
    intro hne
    cases keycode with
    | nil => exact absurd rfl hne
    | cons a t => rfl

/-- C1 at a concrete input: lines 0 and 3 low, tinyusb key codes. -/
theorem getButtonKeycodes_first_low_wins_witness :
    (∃ i : Fin 6, linesLow [0, 3] i = GPIO_PIN_RESET) ∧
    (getButtonKeycodes tinyusb (linesLow [0, 3]) zeroKeycode).1 = 1 ∧
    (getButtonKeycodes tinyusb (linesLow [0, 3]) zeroKeycode).2 = [0x05, 0, 0, 0, 0, 0] :=
  ⟨⟨0, by decide⟩,
   ((getButtonKeycodes_first_low_wins tinyusb (linesLow [0, 3]) zeroKeycode
      ⟨0, by decide⟩).2 (by decide) (by decide)).1,
   ((getButtonKeycodes_first_low_wins tinyusb (linesLow [0, 3]) zeroKeycode
      ⟨0, by decide⟩).2 (by decide) (by decide)).2.1⟩

/-- C2, as stated, fails: not suspended, `tud_hid_ready()` true, the scan of
`getButtonKeycodes` finds line 3 low and returns kind 2, the later scan of
`checkButtons` finds every line high; the tick submits no report. -/
theorem nonzero_kind_without_report :
    (getButtonKeycodes tinyusb (linesLow [3]) zeroKeycode).1 = 2 ∧
    hid_task_tick tinyusb false ⟨0, true, linesLow [3], linesLow []⟩ = [] := by
  decide

/-- C2, amended: in a poll tick with the device not suspended, `tud_hid_ready()` true,
a non-zero kind returned by `getButtonKeycodes` and a low line found by the scan of
`checkButtons` (as it is whenever that scan reads the lines as `getButtonKeycodes`
did), the calls of the tick are exactly one report: for kind 2 a mouse report with
the resolved button mask and zero x, y, wheel and pan, for kind 1 a keyboard
report with modifier 0 and the resolved six-slot keycode array; the kind is 1 or
2, and line 3 alone low gives the back button. -/
theorem hid_task_tick_submits_one_report (x : Externals) (suspended : Bool)
    (i : PollInput) (hs : suspended = false) (hr : i.tud_hid_ready = true)
    (hk : (getButtonKeycodes x i.GPIOB zeroKeycode).1 ≠ 0)
    (hc : i.GPIOB_check = i.GPIOB ∨ ∃ j : Fin 6, i.GPIOB_check j = GPIO_PIN_RESET) :
    ((getButtonKeycodes x i.GPIOB zeroKeycode).1 = 1 ∨
      (getButtonKeycodes x i.GPIOB zeroKeycode).1 = 2) ∧
    (getButtonKeycodes x i.GPIOB zeroKeycode).2.length = 6 ∧
    ((getButtonKeycodes x i.GPIOB zeroKeycode).1 = 2 →
      hid_task_tick x suspended i =
        [Call.tud_hid_mouse_report x.REPORT_ID_MOUSE
          ((getButtonKeycodes x i.GPIOB zeroKeycode).2.getD 0 0) 0 0 0 0]) ∧
    ((getButtonKeycodes x i.GPIOB zeroKeycode).1 = 1 →
      hid_task_tick x suspended i =
        [Call.tud_hid_keyboard_report x.REPORT_ID_KEYBOARD 0
          (getButtonKeycodes x i.GPIOB zeroKeycode).2]) ∧
    ((∀ j : Fin 6, i.GPIOB j = GPIO_PIN_RESET ↔ j = 3) →
      hid_task_tick x suspended i =
        [Call.tud_hid_mouse_report x.REPORT_ID_MOUSE x.MOUSE_BUTTON_BACKWARD 0 0 0 0]) := by
  subst hs
  have hex := (getButtonKeycodes_kind_ne_zero_iff x i.GPIOB zeroKeycode).1 hk
  have hcb : checkButtons i.GPIOB_check = true := by
    rcases hc with hc | hc
    · rw [hc]; exact (checkButtons_iff _).2 hex
    · exact (checkButtons_iff _).2 hc
  obtain ⟨l, hl⟩ := exists_lowestLow i.GPIOB hex
  have hg := getButtonKeycodes_lowest x i.GPIOB zeroKeycode l hl
  have htick : ∀ c, reports (hid_task_tick x false i) = c → hid_task_tick x false i = c := by
    intro c hc
    rw [← hc]
    simp [hid_task_tick, reports, List.filter_append]
    split_ifs <;> simp [Call.isReport]
  refine ⟨?_, ?_, ?_, ?_, ?_⟩
  · rw [hg]; exact lineAction_kind x l zeroKeycode
  · rw [hg, lineAction_length]; rfl
  · intro h2
    apply htick
    rw [reports_tick, hr, hcb, h2]
    rfl
  · intro h1
    apply htick
    rw [reports_tick, hr, hcb, h1]
    rfl
  · intro h3
    have hl3 : LowestLow i.GPIOB 3 :=
      ⟨(h3 3).2 rfl, fun j hj => (not_reset_iff _).1 fun hr3 => by
        have := (h3 j).1 hr3
        subst this
        exact absurd hj (lt_irrefl _)⟩
    apply htick
    rw [reports_tick, hr, hcb, getButtonKeycodes_lowest x i.GPIOB zeroKeycode 3 hl3]
    simp [lineAction, BUTTON_PRESS_ACTION_MOUSE_BUTTONS, zeroKeycode]

/-- C2 amended, at a concrete input: not suspended, endpoint ready, line 3 alone low
at both scans. -/
theorem hid_task_tick_submits_one_report_witness :
    hid_task_tick tinyusb false ⟨0, true, linesLow [3], linesLow [3]⟩ =
      [Call.tud_hid_mouse_report 2 8 0 0 0 0] :=
  (hid_task_tick_submits_one_report tinyusb false ⟨0, true, linesLow [3], linesLow [3]⟩
    rfl rfl (by decide) (Or.inl rfl)).2.2.2.2 (by decide)

/-- C3, as stated, fails: the scan of `getButtonKeycodes` finds every line high and
the resolver returns 0, the later scan of `checkButtons` finds line 0 low, and with
`tud_hid_ready()` true the tick submits a keyboard report. -/
theorem zero_kind_with_report :
    (getButtonKeycodes tinyusb (linesLow []) zeroKeycode).1 = 0 ∧
    reports (hid_task_tick tinyusb false ⟨0, true, linesLow [], linesLow [0]⟩) =
      [Call.tud_hid_keyboard_report 1 0 [0, 0, 0, 0, 0, 0]] := by
  decide

/-- C3, amended: in a poll tick in which `tud_hid_ready()` is false, or in which the
scan of `checkButtons` finds no line low, neither a keyboard nor a mouse report is
submitted (the only call the tick can make is the wake request), whatever the
suspend flag, the board button and the scan of `getButtonKeycodes`. -/
theorem hid_task_tick_no_report (x : Externals) (suspended : Bool) (i : PollInput)
    (h : i.tud_hid_ready = false ∨ ∀ j : Fin 6, i.GPIOB_check j = GPIO_PIN_SET) :
    reports (hid_task_tick x suspended i) = [] ∧
    ∀ c ∈ hid_task_tick x suspended i, c = Call.tud_remote_wakeup := by
  have hcond : (i.tud_hid_ready && checkButtons i.GPIOB_check) = false := by
    rcases h with h | h
    · simp [h]
    · simp [(checkButtons_eq_false_iff _).2 h]
  refine ⟨by rw [reports_tick, hcond]; rfl, ?_⟩
  intro c hc
  unfold hid_task_tick at hc
  simp only [hcond] at hc
  split_ifs at hc <;> simp_all

/-- C3 amended, at a concrete input: endpoint busy with line 0 low at both scans. -/
theorem hid_task_tick_no_report_witness :
    reports (hid_task_tick tinyusb false ⟨0, false, linesLow [0], linesLow [0]⟩) = [] :=
  (hid_task_tick_no_report tinyusb false ⟨0, false, linesLow [0], linesLow [0]⟩
    (Or.inl rfl)).1

/-- C4, as stated, fails: with the device suspended, `tud_hid_ready()` answering true
and line 0 low, the tick submits a keyboard report. -/
theorem suspended_tick_submits_report :
    reports (hid_task_tick tinyusb true ⟨0, true, linesLow [0], linesLow [0]⟩) =
      [Call.tud_hid_keyboard_report 1 0 [0x05, 0, 0, 0, 0, 0]] := by
  decide

/-- C4, amended: in a suspended poll tick no HID report is submitted exactly when
`tud_hid_ready()` is false or the scan of `checkButtons` finds no line low; the
reports of a tick are the same
whether or not the device is suspended, so `hid_task` itself never withholds a
report because of suspension. -/
theorem suspended_tick_reports (x : Externals) (i : PollInput) :
    (reports (hid_task_tick x true i) = [] ↔
      (i.tud_hid_ready = false ∨ ∀ j : Fin 6, i.GPIOB_check j = GPIO_PIN_SET)) ∧
    reports (hid_task_tick x true i) = reports (hid_task_tick x false i) := by
  refine ⟨?_, by rw [reports_tick, reports_tick]⟩
  rw [reports_tick, ← checkButtons_eq_false_iff]
  cases i.tud_hid_ready <;> cases checkButtons i.GPIOB_check <;> simp
  split_ifs <;> simp

/-- C5, as stated, fails in both directions: a suspended tick with line 0 low and
the board button released issues no wake request, and a suspended tick with all
six lines high and the board button pressed issues one. -/
theorem wakeup_ignores_lines :
    ((∃ j : Fin 6, linesLow [0] j = GPIO_PIN_RESET) ∧
      Call.tud_remote_wakeup ∉ hid_task_tick tinyusb true ⟨0, false, linesLow [0], linesLow [0]⟩) ∧
    ((¬ ∃ j : Fin 6, linesLow [] j = GPIO_PIN_RESET) ∧
      Call.tud_remote_wakeup ∈ hid_task_tick tinyusb true ⟨1, false, linesLow [], linesLow []⟩) := by
  decide

/-- C5, amended: in a suspended poll tick a remote-wake request is issued if and only
if `board_button_read()` returns non-zero in that tick, and then exactly once; the
six input lines do not enter the decision. -/
theorem suspended_tick_wakeup_iff_board_button (x : Externals) (i : PollInput) :
    (Call.tud_remote_wakeup ∈ hid_task_tick x true i ↔ i.board_button_read ≠ 0) ∧
    wakeups (hid_task_tick x true i) = (if i.board_button_read ≠ 0 then 1 else 0) ∧
    (∀ g g2 : Lines,
      wakeups (hid_task_tick x true ⟨i.board_button_read, i.tud_hid_ready, g, g2⟩) =
        wakeups (hid_task_tick x true i)) := by
  refine ⟨?_, ?_, ?_⟩
  · unfold hid_task_tick
    by_cases hb : i.board_button_read = 0
    · simp [hb]
      split_ifs <;> simp
    · simp [hb]
  · rw [wakeups_tick]
    by_cases hb : i.board_button_read = 0 <;> simp [hb]
  · intro g g2
    rw [wakeups_tick, wakeups_tick]

/-- C6, as stated, fails: after mount and suspend, two consecutive poll ticks with
the board button pressed and line 3 held low issue two remote-wake requests. -/
theorem wakeup_repeated_each_tick :
    (run tinyusb (System.start tinyusb)
      [Input.event Event.mount, Input.event (Event.suspend true),
       Input.poll ⟨1, false, linesLow [3], linesLow [3]⟩, Input.poll ⟨1, false, linesLow [3], linesLow [3]⟩]).1.connection
      = ConnectionState.Suspended ∧
    wakeups (run tinyusb (System.start tinyusb)
      [Input.event Event.mount, Input.event (Event.suspend true),
       Input.poll ⟨1, false, linesLow [3], linesLow [3]⟩, Input.poll ⟨1, false, linesLow [3], linesLow [3]⟩]).2 = 2 := by
  decide

/-- C6, amended: `hid_task` keeps no record of a wake request. Over consecutive poll
ticks of a suspended device, `tud_remote_wakeup` is called once in every tick in
which `board_button_read()` is non-zero; with the button held through all `n`
ticks it is called `n` times. -/
theorem suspended_polls_wakeup_count (x : Externals) (s : System) (ps : List PollInput)
    (hs : s.connection = ConnectionState.Suspended) :
    wakeups (run x s (ps.map Input.poll)).2 =
      (ps.filter fun p => p.board_button_read != 0).length ∧
    ((∀ p ∈ ps, p.board_button_read ≠ 0) →
      wakeups (run x s (ps.map Input.poll)).2 = ps.length) := by
  have key : wakeups (run x s (ps.map Input.poll)).2 =
      (ps.filter fun p => p.board_button_read != 0).length := by
    induction ps with
    | nil => rfl
    | cons p ps ih =>
      have hw : wakeups (run x s (List.map Input.poll (p :: ps))).2 =
          wakeups (hid_task_tick x (tud_suspended s.connection) p) +
            wakeups (run x s (ps.map Input.poll)).2 := by
        simp [run, step, wakeups, List.countP_append]
      rw [hw, ih, wakeups_tick, hs]
      by_cases hb : p.board_button_read = 0
      · simp [hb, tud_suspended]
      · simp [hb, tud_suspended, List.filter_cons]
        omega
  refine ⟨key, fun hall => ?_⟩
  rw [key, List.filter_eq_self.2]
  intro p hp
  simpa using hall p hp

/-- C6 amended, at a concrete input: three suspended ticks with the button held. -/
theorem suspended_polls_wakeup_count_witness :
    wakeups (run tinyusb ⟨⟨2500⟩, ConnectionState.Suspended⟩
      ([⟨1, false, linesLow [3], linesLow [3]⟩, ⟨1, true, linesLow [], linesLow []⟩, ⟨7, false, linesLow [0], linesLow [0]⟩].map
        Input.poll)).2 = 3 :=
  (suspended_polls_wakeup_count tinyusb ⟨⟨2500⟩, ConnectionState.Suspended⟩
    [⟨1, false, linesLow [3], linesLow [3]⟩, ⟨1, true, linesLow [], linesLow []⟩, ⟨7, false, linesLow [0], linesLow [0]⟩] rfl).2
    (by decide)

/-- C7, as stated, fails: after a suspend event delivered with `remote_wakeup_en`
false, a poll tick with the board button pressed issues a remote-wake request. -/
theorem wakeup_without_permission :
    Call.tud_remote_wakeup ∈ (run tinyusb (System.start tinyusb)
      [Input.event Event.mount, Input.event (Event.suspend false),
       Input.poll ⟨1, false, linesLow [0], linesLow [0]⟩]).2 := by
  decide

/-- C7, amended: `tud_suspend_cb` discards `remote_wakeup_en`, so the system after a
suspend event is the same for both values of the flag; in every poll tick that
follows the suspend event (with only poll ticks in between) `hid_task` calls
`tud_remote_wakeup` if and only if `board_button_read()` is non-zero, for either
value of the flag. -/
theorem wakeup_independent_of_permission (x : Externals) (s : System)
    (remote_wakeup_en : Bool) (ps : List PollInput) (i : PollInput) :
    deliver x s (Event.suspend remote_wakeup_en) = deliver x s (Event.suspend true) ∧
    (Call.tud_remote_wakeup ∈
        (step x (run x (deliver x s (Event.suspend remote_wakeup_en))
          (ps.map Input.poll)).1 (Input.poll i)).2 ↔
      i.board_button_read ≠ 0) := by
  refine ⟨rfl, ?_⟩
  rw [run_polls_state]
  simp only [step, deliver, connectionAfter, tud_suspended]
  unfold hid_task_tick
  by_cases hb : i.board_button_read = 0
  · simp [hb]
    split_ifs <;> simp
  · simp [hb]

/-- C8: the blink period is fixed by the last lifecycle event alone. It is that of
250 ms as `main` creates the timer and after every unmount, of 1000 ms after every
mount and every resume, of 2500 ms after every suspend, from every state; poll
ticks never change it, so after any run from the start it is the period of the last
lifecycle event of the run (250 ms when there was none). -/
theorem blink_period_by_last_event (x : Externals) :
    (System.start x).blinky_tm.period = x.pdMS_TO_TICKS 250 ∧
    (∀ s : System, (deliver x s Event.umount).blinky_tm.period = x.pdMS_TO_TICKS 250) ∧
    (∀ s : System, (deliver x s Event.mount).blinky_tm.period = x.pdMS_TO_TICKS 1000) ∧
    (∀ s : System, (deliver x s Event.resume).blinky_tm.period = x.pdMS_TO_TICKS 1000) ∧
    (∀ (s : System) (en : Bool),
      (deliver x s (Event.suspend en)).blinky_tm.period = x.pdMS_TO_TICKS 2500) ∧
    (∀ (s : System) (i : PollInput), (step x s (Input.poll i)).1 = s) ∧
    (∀ ins : List Input,
      (run x (System.start x) ins).1.blinky_tm.period =
        x.pdMS_TO_TICKS (match (eventsOf ins).getLast? with
          | none => 250
          | some e => periodOf e)) := by
  refine ⟨rfl, fun _ => rfl, fun _ => rfl, fun _ => rfl, fun _ _ => rfl, fun _ _ => rfl, ?_⟩
  have gen : ∀ (ins : List Input) (s : System),
      (run x s ins).1.blinky_tm.period =
        (match (eventsOf ins).getLast? with
          | none => s.blinky_tm.period
          | some e => x.pdMS_TO_TICKS (periodOf e)) := by
    intro ins
    induction ins with
    | nil => intro s; rfl
    | cons a rest ih =>
      intro s
      cases a with
      | poll i => simpa [run, step, eventsOf] using ih s
      | event e =>
        have hrun : (run x s (Input.event e :: rest)).1 = (run x (deliver x s e) rest).1 := rfl
        rw [hrun, ih (deliver x s e)]
        cases hr : eventsOf rest with
        | nil =>
          simp only [eventsOf, hr, List.getLast?_nil, List.getLast?_singleton]
          cases e <;> rfl
        | cons b t =>
          simp only [eventsOf, hr, List.getLast?_cons_cons]
          cases hl : (b :: t).getLast? with
          | none => simp at hl
          | some v => rfl
  intro ins
  rw [gen ins (System.start x)]
  cases (eventsOf ins).getLast? <;> rfl

/-- C9: `checkButtons` returns true if and only if at least one of the six lines
reads low, and `getButtonKeycodes` returns a non-zero kind on exactly the same
snapshots, whatever buffer it is given. -/
theorem scan_active_iff_low (x : Externals) (GPIOB : Lines) (keycode : List uint8_t) :
    (checkButtons GPIOB = true ↔ ∃ i : Fin 6, GPIOB i = GPIO_PIN_RESET) ∧
    ((getButtonKeycodes x GPIOB keycode).1 ≠ 0 ↔ ∃ i : Fin 6, GPIOB i = GPIO_PIN_RESET) ∧
    ((getButtonKeycodes x GPIOB keycode).1 ≠ 0 ↔ checkButtons GPIOB = true) := by
  refine ⟨checkButtons_iff GPIOB, getButtonKeycodes_kind_ne_zero_iff x GPIOB keycode, ?_⟩
  rw [checkButtons_iff, getButtonKeycodes_kind_ne_zero_iff]

/-- C10: when line 4 is the lowest-indexed low line and the buffer starts all-zero,
`getButtonKeycodes` returns kind 1 and leaves the buffer as
`[HID_KEY_CONTROL_LEFT, HID_KEY_7, 0, 0, 0, 0]`; the left-shift code (when it differs
from left-control, from `HID_KEY_7` and from 0, as it does in tinyusb) is in no
slot; every report of such a tick is the keyboard report with modifier byte 0 and
that array, and that report is submitted once the endpoint is ready and the scan
of `checkButtons` finds a low line, as it does when it reads the same levels. -/
theorem line4_loses_shift (x : Externals) (GPIOB : Lines) (h : LowestLow GPIOB 4) :
    getButtonKeycodes x GPIOB zeroKeycode =
      (1, [x.HID_KEY_CONTROL_LEFT, x.HID_KEY_7, 0, 0, 0, 0]) ∧
    (x.HID_KEY_SHIFT_LEFT ≠ x.HID_KEY_CONTROL_LEFT → x.HID_KEY_SHIFT_LEFT ≠ x.HID_KEY_7 →
      x.HID_KEY_SHIFT_LEFT ≠ 0 →
      x.HID_KEY_SHIFT_LEFT ∉ (getButtonKeycodes x GPIOB zeroKeycode).2) ∧
    (∀ (suspended : Bool) (btn : Nat),
      reports (hid_task_tick x suspended ⟨btn, true, GPIOB, GPIOB⟩) =
        [Call.tud_hid_keyboard_report x.REPORT_ID_KEYBOARD 0
          [x.HID_KEY_CONTROL_LEFT, x.HID_KEY_7, 0, 0, 0, 0]]) ∧
    (∀ (suspended : Bool) (btn : Nat) (check : Lines),
      (∃ j : Fin 6, check j = GPIO_PIN_RESET) →
      reports (hid_task_tick x suspended ⟨btn, true, GPIOB, check⟩) =
        [Call.tud_hid_keyboard_report x.REPORT_ID_KEYBOARD 0
          [x.HID_KEY_CONTROL_LEFT, x.HID_KEY_7, 0, 0, 0, 0]]) ∧
    (∀ (suspended ready : Bool) (btn : Nat) (check : Lines),
      ∀ c ∈ reports (hid_task_tick x suspended ⟨btn, ready, GPIOB, check⟩),
        c = Call.tud_hid_keyboard_report x.REPORT_ID_KEYBOARD 0
          [x.HID_KEY_CONTROL_LEFT, x.HID_KEY_7, 0, 0, 0, 0]) := by
  have hg : getButtonKeycodes x GPIOB zeroKeycode =
      (1, [x.HID_KEY_CONTROL_LEFT, x.HID_KEY_7, 0, 0, 0, 0]) := by
    rw [getButtonKeycodes_lowest x GPIOB zeroKeycode 4 h]
    rfl
  have hsent : ∀ (suspended : Bool) (btn : Nat) (check : Lines),
      (∃ j : Fin 6, check j = GPIO_PIN_RESET) →
      reports (hid_task_tick x suspended ⟨btn, true, GPIOB, check⟩) =
        [Call.tud_hid_keyboard_report x.REPORT_ID_KEYBOARD 0
          [x.HID_KEY_CONTROL_LEFT, x.HID_KEY_7, 0, 0, 0, 0]] := by
    intro susp btn check hex
    have hcb : checkButtons check = true := (checkButtons_iff _).2 hex
    rw [reports_tick]
    simp only [hcb, hg]
    rfl
  refine ⟨hg, ?_, ?_, hsent, ?_⟩
  · intro h1 h2 h3
    rw [hg]
    simp [h1, h2, h3]
  · intro susp btn
    exact hsent susp btn GPIOB ⟨4, h.1⟩
  · intro susp ready btn check c hc
    rw [reports_tick] at hc
    simp only [hg] at hc
    split_ifs at hc with h1 h2
    · exact absurd h2 (by decide)
    · simpa using hc
    · simp at hc

/-- C10 at a concrete input: lines 4 and 5 low, tinyusb key codes. -/
theorem line4_loses_shift_witness :
    getButtonKeycodes tinyusb (linesLow [4, 5]) zeroKeycode = (1, [0xE0, 0x24, 0, 0, 0, 0]) ∧
    (0xE1 : uint8_t) ∉ (getButtonKeycodes tinyusb (linesLow [4, 5]) zeroKeycode).2 :=
  ⟨(line4_loses_shift tinyusb (linesLow [4, 5]) (by decide)).1,
   (line4_loses_shift tinyusb (linesLow [4, 5]) (by decide)).2.1
     (by decide) (by decide) (by decide)⟩

end CustomKey
